import Mathlib

/-!
Verification development for the r2logs command-line client.

The Lean definitions below are a shallow embedding of the Rust sources:
  - `src/commands.rs` : subcommands, argument records, endpoint builder
  - `src/config.rs`   : environment/credential loader
  - `src/api.rs`      : HTTP log fetcher
  - `src/main.rs`     : the self-contained binary (its own loader, resolver,
    endpoint construction and control flow)

External library behaviour (the chrono datetime library and the reqwest
HTTP client) is modelled explicitly: instants are integers counting seconds
since the Unix epoch, the proleptic Gregorian calendar conversion uses the
standard era-based civil-date algorithm, and an HTTP exchange is a value
describing what the transport produced.  The environment is a partial map
from variable names to string values.
-/

namespace R2Logs

/-! ### Subcommands, argument records and the endpoint builder -/

/-- Embedding of `enum Commands` (src/commands.rs and src/main.rs):
the Retrieve and List subcommands. -/
inductive Commands where
  | Retrieve
  | List
deriving DecidableEq

/-- Embedding of `struct ParsedArgs` (resolved time range plus flags). -/
structure ParsedArgs where
  start_time : String
  end_time : String
  verbose : Bool
  commands : Option Commands
deriving DecidableEq

/-- Record of the two identifiers the endpoint builder reads (the
`UrlEnv` value used by `Commands::build_endpoint` in src/commands.rs;
reconstructed from its two field accesses). -/
structure UrlEnv where
  cf_account_id : String
  bucket_name : String
deriving DecidableEq

/-- The fixed account-scoped base of every endpoint URL. -/
def urlBase : String := "https://api.cloudflare.com/client/v4/accounts/"

/-- Embedding of `Commands::build_endpoint` (src/commands.rs): the base URL
is formatted from the account id, the query parameters are formatted in the
fixed order start, end, bucket, prefix, and the DATE token is passed through
as a literal. -/
def Commands.build_endpoint (c : Commands) (args : ParsedArgs) (env : UrlEnv) : String :=
  let base_url := urlBase ++ env.cf_account_id ++ "/logs"
  let params :=
    "start=" ++ args.start_time ++ "&end=" ++ args.end_time ++ "&bucket=" ++ env.bucket_name
      ++ "&prefix=" ++ "\x7bDATE\x7d"
  match c with
  | Commands.Retrieve => base_url ++ "/retrieve?" ++ params
  | Commands.List => base_url ++ "/list?" ++ params

/-! ### Environment and credential loader -/

/-- The process environment: a partial map from variable names to values.
`none` means the variable is absent; `some v` means it is set to `v`
(possibly the empty string). -/
abbrev EnvMap := String → Option String

/-- The newline separator used when joining error messages. -/
def nl : String := "\n"

/-- The empty string (used as the non-fatal placeholder value and as the
empty fetch result). -/
def emptyText : String := ""

/-- Environment variable name. -/
def CF_API_KEY : String := "CF_API_KEY"

/-- Environment variable name. -/
def R2_ACCESS_KEY_ID : String := "R2_ACCESS_KEY_ID"

/-- Environment variable name. -/
def R2_SECRET_ACCESS_KEY : String := "R2_SECRET_ACCESS_KEY"

/-- Environment variable name. -/
def CF_ACCOUNT_ID : String := "CF_ACCOUNT_ID"

/-- Environment variable name. -/
def BUCKET_NAME : String := "BUCKET_NAME"

/-- The suffix of each missing-variable message. -/
def isNotSet : String := " is not set"

/-- The hint printed when credential loading fails. -/
def pleaseSetMsg : String := "Please set environment variables"

/-- The blank line printed (to standard output) between the error and the
hint on the credential-failure path. -/
def blankLine : String := ""

/-- Embedding of `struct Env` (src/config.rs and src/main.rs): the five
credential/identifier strings. -/
structure Env where
  cf_api_key : String
  r2_access_key_id : String
  r2_secret_access_key : String
  cf_account_id : String
  bucket_name : String
deriving DecidableEq

/-- Embedding of `Env::get_env_var` (src/main.rs) and
`Env::get_env_var_or_default` (src/config.rs): look a variable up; on
absence push a message onto the error list and substitute the empty
string. -/
def get_env_var (env : EnvMap) (var_name : String) (error_messages : List String) :
    String × List String :=
  match env var_name with
  | some value => (value, error_messages)
  | none => (emptyText, error_messages ++ [var_name ++ isNotSet])

/-- Embedding of `Env::new` (src/main.rs lines 124-152; src/config.rs has
the same logic): attempt all five variables in one pass, accumulating
error messages, then fail with the newline-joined messages when any were
recorded and succeed with the populated structure otherwise. -/
def Env.new (env : EnvMap) : Except String Env :=
  let r1 := get_env_var env CF_API_KEY []
  let r2 := get_env_var env R2_ACCESS_KEY_ID r1.2
  let r3 := get_env_var env R2_SECRET_ACCESS_KEY r2.2
  let r4 := get_env_var env CF_ACCOUNT_ID r3.2
  let r5 := get_env_var env BUCKET_NAME r4.2
  match r5.2.length with
  | 0 => Except.ok ⟨r1.1, r2.1, r3.1, r4.1, r5.1⟩
  | _ + 1 => Except.error (String.intercalate nl r5.2)

/-- The five variable names, in the order the loader attempts them. -/
def envVarNames : List String :=
  [CF_API_KEY, R2_ACCESS_KEY_ID, R2_SECRET_ACCESS_KEY, CF_ACCOUNT_ID, BUCKET_NAME]

/-- The names of the variables absent from `env`, in attempt order
(specification-side helper). -/
def envMissing (env : EnvMap) : List String :=
  envVarNames.filter (fun n => (env n).isNone)

/-- The combined failure message: one missing-variable line per absent
variable, joined by newlines (specification-side helper). -/
def missingMessage (env : EnvMap) : String :=
  String.intercalate nl ((envMissing env).map (fun n => n ++ isNotSet))

/-- What a process-terminating path prints and which exit code it uses. -/
structure ExitAction where
  stderrLines : List String
  stdoutLines : List String
  code : Nat
deriving DecidableEq

/-- Embedding of `Env::get_env` (src/config.rs lines 18-28): on loader
failure it prints the combined message, a blank line, and the hint, then
terminates the process with exit code 1 (modelled as the error value). -/
def Env.get_env (env : EnvMap) : Except ExitAction Env :=
  match Env.new env with
  | Except.ok e => Except.ok e
  | Except.error msg => Except.error ⟨[msg, pleaseSetMsg], [blankLine], 1⟩

/-! ### HTTP fetch (src/api.rs) -/

/-- Outcome of reading a response body: the text, or a transport failure
while streaming the body. -/
inductive BodyRead where
  | ok (text : String)
  | transportErr
deriving DecidableEq

/-- What the transport produced for the single GET request: a send-level
failure, or a response with a status code and a body read outcome. -/
inductive HttpExchange where
  | sendErr
  | response (status : Nat) (body : BodyRead)
deriving DecidableEq

/-- Model of `reqwest::StatusCode::is_success`: 2xx statuses. -/
def statusIsSuccess (s : Nat) : Bool := 200 ≤ s && s < 300

/-- Embedding of `fetch_logs` (src/api.rs lines 33-64).  A send failure
propagates as an error.  A non-success status reads the body only as a
diagnostic and returns an empty-string success.  A success status reads
the body (propagating a read failure), returns empty-string success with a
diagnostic when it is empty, and otherwise returns the raw body text. -/
def fetch_logs (http : HttpExchange) : Except Unit String :=
  match http with
  | HttpExchange.sendErr => Except.error ()
  | HttpExchange.response status body =>
    if statusIsSuccess status then
      match body with
      | BodyRead.transportErr => Except.error ()
      | BodyRead.ok text =>
        if text.isEmpty then Except.ok emptyText else Except.ok text
    else
      Except.ok emptyText

/-! ### Calendar model (the chrono library)

Instants are integers counting seconds since 1970-01-01T00:00:00Z.  The
civil (proleptic Gregorian) conversion is the standard era-based
algorithm; Int division in Lean is Euclidean, which agrees with floor
division for the positive divisors used here. -/

/-- Civil date (year, month, day) of the day `z0` days after 1970-01-01. -/
def civilFromDays (z0 : Int) : Int × Int × Int :=
  let z := z0 + 719468
  let era := z / 146097
  let doe := z - era * 146097
  let yoe := (doe - doe / 1460 + doe / 36524 - doe / 146096) / 365
  let y := yoe + era * 400
  let doy := doe - (365 * yoe + yoe / 4 - yoe / 100)
  let mp := (5 * doy + 2) / 153
  let d := doy - (153 * mp + 2) / 5 + 1
  let m := if mp < 10 then mp + 3 else mp - 9
  (if m ≤ 2 then y + 1 else y, m, d)

/-- Days since 1970-01-01 of the civil date `(y, m, d)`. -/
def daysFromCivil (y m d : Int) : Int :=
  let y' := if m ≤ 2 then y - 1 else y
  let era := y' / 400
  let yoe := y' - era * 400
  let mp := if 2 < m then m - 3 else m + 9
  let doy := (153 * mp + 2) / 5 + d - 1
  let doe := yoe * 365 + yoe / 4 - yoe / 100 + doy
  era * 146097 + doe - 719468

/-- Length of month `m` in year `y` of the proleptic Gregorian calendar. -/
def daysInMonth (y m : Int) : Int :=
  if m = 2 then (if y % 4 = 0 ∧ (y % 100 ≠ 0 ∨ y % 400 = 0) then 29 else 28)
  else if m = 4 ∨ m = 6 ∨ m = 9 ∨ m = 11 then 30 else 31

/-- The character of the decimal digit `n` (for `n` below ten). -/
def digitOf (n : Nat) : Char := Char.ofNat (48 + n)

/-- Two-digit zero-padded decimal rendering. -/
def pad2 (n : Nat) : List Char := [digitOf (n / 10 % 10), digitOf (n % 10)]

/-- Four-digit zero-padded decimal rendering. -/
def pad4 (n : Nat) : List Char :=
  [digitOf (n / 1000 % 10), digitOf (n / 100 % 10), digitOf (n / 10 % 10), digitOf (n % 10)]

/-- Model of rendering an instant in RFC3339 UTC form at seconds
precision.  This is the common behaviour of `Args::format_datetime`
(src/main.rs, strftime pattern `%Y-%m-%dT%H:%M:%SZ`) and of
`to_rfc3339_opts(SecondsFormat::Secs, true)` (src/commands.rs): both
produce `YYYY-MM-DDTHH:MM:SSZ`. -/
def format_datetime (t : Int) : String :=
  let days := t / 86400
  let sod := (t % 86400).toNat
  let c := civilFromDays days
  String.mk (pad4 c.1.toNat ++ '-' :: pad2 c.2.1.toNat ++ '-' :: pad2 c.2.2.toNat
    ++ 'T' :: pad2 (sod / 3600) ++ ':' :: pad2 (sod % 3600 / 60) ++ ':' :: pad2 (sod % 60)
    ++ ['Z'])

/-- Decimal digit value of a character, if it is a digit (code points 48
to 57), and nothing otherwise. -/
def digit? (c : Char) : Option Int :=
  if 48 ≤ c.toNat ∧ c.toNat ≤ 57 then some ((c.toNat : Int) - 48) else none

/-- Model of the chrono RFC3339 datetime parser, restricted to the
canonical UTC form `YYYY-MM-DDTHH:MM:SSZ` at seconds precision (the form
the repository documents, tests with, and produces).  Calendar validity is
checked; the result is the instant in seconds since the epoch. -/
def parseRfc3339Z (s : String) : Option Int :=
  match s.data with
  | [y1, y2, y3, y4, '-', m1, m2, '-', d1, d2, 'T', h1, h2, ':', n1, n2, ':', s1, s2, 'Z'] =>
    match digit? y1, digit? y2, digit? y3, digit? y4, digit? m1, digit? m2, digit? d1,
        digit? d2, digit? h1, digit? h2, digit? n1, digit? n2, digit? s1, digit? s2 with
    | some a1, some a2, some a3, some a4, some b1, some b2, some e1, some e2, some f1,
        some f2, some g1, some g2, some k1, some k2 =>
      let y := ((a1 * 10 + a2) * 10 + a3) * 10 + a4
      let mo := b1 * 10 + b2
      let da := e1 * 10 + e2
      let hh := f1 * 10 + f2
      let mi := g1 * 10 + g2
      let ss := k1 * 10 + k2
      if 1 ≤ mo ∧ mo ≤ 12 ∧ 1 ≤ da ∧ da ≤ daysInMonth y mo ∧ hh ≤ 23 ∧ mi ≤ 59 ∧ ss ≤ 59
      then some (daysFromCivil y mo da * 86400 + hh * 3600 + mi * 60 + ss)
      else none
    | _, _, _, _, _, _, _, _, _, _, _, _, _, _ => none
  | _ => none

/-! ### Time-range resolver -/

/-- Embedding of `struct Args` (src/main.rs): the raw optional positional
strings and flags as delivered by the CLI layer. -/
structure Args where
  start_time : Option String
  end_time : Option String
  verbose : Bool
  commands : Option Commands
deriving DecidableEq

/-- Embedding of `Args::parse_and_check` (src/main.rs lines 83-102).  A
supplied timestamp is parsed (`parse::<DateTime<Utc>>().unwrap()`) and
re-rendered; an absent start defaults to five minutes before now and an
absent end to now.  The `unwrap` panic on a failed parse is modelled as
`none`.  The source reads the clock separately for each default;
the model supplies one instant `now` for both. -/
def Args.parse_and_check (a : Args) (now : Int) : Option ParsedArgs := do
  let start_time ←
    match a.start_time with
    | some s => (parseRfc3339Z s).map format_datetime
    | none => some (format_datetime (now - 5 * 60))
  let end_time ←
    match a.end_time with
    | some s => (parseRfc3339Z s).map format_datetime
    | none => some (format_datetime now)
  pure ⟨start_time, end_time, a.verbose, a.commands⟩

/-- Embedding of the typed `struct Args` (src/commands.rs): here the CLI
layer has already parsed the positional arguments into instants, so the
resolver receives `Option` instants and is total. -/
structure TypedArgs where
  start_time : Option Int
  end_time : Option Int
  verbose : Bool
  commands : Option Commands
deriving DecidableEq

/-- Embedding of `Args::parsed` (src/commands.rs lines 42-59):
`map_or(now - 5 minutes, id)` and `map_or(now, id)`, both rendered at
seconds precision. -/
def TypedArgs.parsed (a : TypedArgs) (now : Int) : ParsedArgs :=
  ⟨format_datetime (a.start_time.getD (now - 5 * 60)),
   format_datetime (a.end_time.getD now),
   a.verbose, a.commands⟩

/-! ### The main control flow (src/main.rs) -/

/-- Embedding of the endpoint construction in `main` (src/main.rs lines
188-207): one full format template per subcommand arm, with the absent
subcommand defaulting to the retrieve endpoint. -/
def mainEndpoint (args : ParsedArgs) (env : Env) : String :=
  match args.commands with
  | some Commands.Retrieve =>
      urlBase ++ env.cf_account_id ++ "/logs/retrieve?start=" ++ args.start_time ++ "&end="
        ++ args.end_time ++ "&bucket=" ++ env.bucket_name ++ "&prefix=" ++ "\x7bDATE\x7d"
  | some Commands.List =>
      urlBase ++ env.cf_account_id ++ "/logs/list?start=" ++ args.start_time ++ "&end="
        ++ args.end_time ++ "&bucket=" ++ env.bucket_name ++ "&prefix=" ++ "\x7bDATE\x7d"
  | none =>
      urlBase ++ env.cf_account_id ++ "/logs/retrieve?start=" ++ args.start_time ++ "&end="
        ++ args.end_time ++ "&bucket=" ++ env.bucket_name ++ "&prefix=" ++ "\x7bDATE\x7d"

/-- Observable outcome of one program run: what was printed to the error
stream and to standard output, the process exit code, and whether an HTTP
request was attempted. -/
structure MainResult where
  stderrLines : List String
  stdoutLines : List String
  exitCode : Nat
  httpRequested : Bool
deriving DecidableEq

/-- Diagnostic line for a non-success status in `main` (src/main.rs). -/
def failedRetrieveMsg (status : Nat) : String :=
  "Failed to retrieve logs: " ++ toString status

/-- Diagnostic printed on an empty body. -/
def noLogsMsg : String := "No logs found"

/-- Diagnostic printed on an empty body. -/
def checkRangeMsg : String := "Please check time range"

/-- Embedding of `main` (src/main.rs lines 166-240).  The loader runs
first; on failure main prints the combined message, a blank standard
output line and the hint, then returns `Ok(())` so the process exits with
code 0 and no request is attempted.  Otherwise the resolver runs (its
panic modelled as `none`), the request is sent, a send or body-read
failure is propagated (the process then exits non-zero), a non-success
status prints a diagnostic and exits 0 with no output, an empty body
prints diagnostics and exits 0, and otherwise the body is printed.
Verbose-mode echo lines are not modelled. -/
def mainRun (env : EnvMap) (a : Args) (now : Int) (http : HttpExchange) : Option MainResult :=
  match Env.new env with
  | Except.error e => some ⟨[e, pleaseSetMsg], [blankLine], 0, false⟩
  | Except.ok _cfg =>
    match a.parse_and_check now with
    | none => none
    | some _args =>
      match http with
      | HttpExchange.sendErr => some ⟨[], [], 1, true⟩
      | HttpExchange.response status body =>
        if statusIsSuccess status then
          match body with
          | BodyRead.transportErr => some ⟨[], [], 1, true⟩
          | BodyRead.ok text =>
            if text.isEmpty then some ⟨[noLogsMsg, checkRangeMsg], [], 0, true⟩
            else some ⟨[], [text], 0, true⟩
        else
          some ⟨[failedRetrieveMsg status], [], 0, true⟩

/-! ### Concrete inputs used by witnesses and counterexamples -/

/-- The environment with no variable set. -/
def envNone : EnvMap := fun _ => none

/-- The environment with every variable present but empty. -/
def envAllEmpty : EnvMap := fun _ => some emptyText

/-- A string that is not a datetime. -/
def badInput : String := "not-a-datetime"

/-- The RFC3339 example used throughout the repository documentation. -/
def exampleInput : String := "2024-01-11T15:00:00Z"

/-- An instant five minutes after `exampleInput`. -/
def lateInput : String := "2024-01-11T15:05:00Z"

/-- A sample account id. -/
def accA : String := "acct"

/-- A sample bucket name. -/
def bucketB : String := "bkt"

/-- A sample non-empty response body. -/
def sampleBody : String := "log-record-json"

/-- A sample error response body. -/
def sampleErrorBody : String := "bucket not found"

/-- Day-count correction used in the year-of-era recovery of
`civilFromDays`. -/
def yoeCorrect (x : Int) : Int := x - x / 1460 + x / 36524

/-- Days of era strictly before shifted year `y` (Nat form, used in the
finite-case boundary lemmas). -/
def doeBefore (y : Nat) : Nat := 365 * y + y / 4 - y / 100

/-! ### Helper lemmas -/

theorem digit?_some {c : Char} {k : Int} (h : digit? c = some k) :
    0 ≤ k ∧ k ≤ 9 ∧ digitOf k.toNat = c := by
  unfold digit? at h
  split at h
  case isFalse => exact absurd h (by simp)
  rename_i hc
  injection h with hk
  refine ⟨by omega, by omega, ?_⟩
  rw [digitOf, show 48 + k.toNat = c.toNat by omega]
  exact Char.ofNat_toNat c

theorem yoeCorrect_mono (a b : Int) (h : a ≤ b) : yoeCorrect a ≤ yoeCorrect b := by
  simp only [yoeCorrect]
  omega

set_option maxRecDepth 2000 in
theorem doeBefore_low : ∀ y : Nat, y < 400 →
    365 * y ≤ doeBefore y + (doeBefore y) / 36524 - (doeBefore y) / 1460 := by decide

set_option maxRecDepth 2000 in
theorem doeBefore_high : ∀ y : Nat, y < 400 →
    (doeBefore (y + 1) - 1) + (doeBefore (y + 1) - 1) / 36524 - (doeBefore (y + 1) - 1) / 1460
      ≤ 365 * y + 364 := by decide

set_option maxRecDepth 2000 in
theorem doeBefore_succ : ∀ y : Nat, y < 400 →
    (doeBefore y + 365 ≤ doeBefore (y + 1)) ∧
    (((y + 1) % 4 = 0 ∧ ((y + 1) % 100 ≠ 0 ∨ (y + 1) % 400 = 0)) → y < 399 →
      doeBefore y + 366 ≤ doeBefore (y + 1)) := by decide

set_option maxRecDepth 2000 in
theorem doeBefore_le : ∀ y : Nat, y ≤ 400 → doeBefore y ≤ 146096 := by decide

theorem yoe_recover (yoe doy doe : Int) (h1 : 0 ≤ yoe) (h2 : yoe ≤ 399) (h3 : 0 ≤ doy)
    (h4 : doy ≤ 365)
    (h5 : doy = 365 → ((yoe + 1) % 4 = 0 ∧ ((yoe + 1) % 100 ≠ 0 ∨ (yoe + 1) % 400 = 0)))
    (hdoe : doe = yoe * 365 + yoe / 4 - yoe / 100 + doy) :
    (doe - doe / 1460 + doe / 36524 - doe / 146096) / 365 = yoe := by
  lift yoe to ℕ using h1 with n hn
  lift doy to ℕ using h3 with dy hdy
  by_cases hedge : doe = 146096
  · have hy : (n : Int) = 399 := by omega
    rw [hedge, hy]
    decide
  · have hnlt : n < 400 := by omega
    have hsucc := doeBefore_succ n hnlt
    have hbr1 : ((doeBefore n : Nat) : Int) ≤ doe := by
      simp only [doeBefore]
      omega
    have hbr2 : doe ≤ ((doeBefore (n + 1) - 1 : Nat) : Int) := by
      simp only [doeBefore] at hsucc ⊢
      omega
    have hg1 := yoeCorrect_mono _ doe hbr1
    have hg2 := yoeCorrect_mono doe _ hbr2
    have k1 : 365 * (n : Int) ≤ yoeCorrect doe := by
      refine le_trans ?_ hg1
      have hlowN := doeBefore_low n hnlt
      simp only [yoeCorrect]
      generalize doeBefore n = D at hlowN ⊢
      omega
    have k2 : yoeCorrect doe ≤ 365 * (n : Int) + 364 := by
      refine le_trans hg2 ?_
      have hhighN := doeBefore_high n hnlt
      simp only [yoeCorrect]
      generalize doeBefore (n + 1) - 1 = D at hhighN ⊢
      omega
    have hub := doeBefore_le (n + 1) (by omega)
    have hz : doe / 146096 = 0 := by
      have h0 : (0 : Int) ≤ ((doeBefore n : Nat) : Int) := by positivity
      omega
    simp only [yoeCorrect] at k1 k2
    omega

theorem civilFromDays_eq (z era doe yoe doy mp d m y : Int)
    (hz : z + 719468 = era * 146097 + doe)
    (h1 : 0 ≤ doe) (h2 : doe ≤ 146096)
    (hyoeF : (doe - doe / 1460 + doe / 36524 - doe / 146096) / 365 = yoe)
    (hdoyF : doe - (365 * yoe + yoe / 4 - yoe / 100) = doy)
    (hmpF : (5 * doy + 2) / 153 = mp)
    (hdF : doy - (153 * mp + 2) / 5 + 1 = d)
    (hmF : (if mp < 10 then mp + 3 else mp - 9) = m)
    (hyF : (if m ≤ 2 then yoe + era * 400 + 1 else yoe + era * 400) = y) :
    civilFromDays z = (y, m, d) := by
  have e2 : (era * 146097 + doe) / 146097 = era := by omega
  have e3 : era * 146097 + doe - era * 146097 = doe := by ring
  simp only [civilFromDays]
  rw [hz, e2, e3, hyoeF, hdoyF, hmpF, hdF, hmF, hyF]

set_option maxHeartbeats 1000000 in
theorem civil_days_inverse (y m d : Int) (hy : 0 ≤ y) (hy2 : y ≤ 9999)
    (hm : 1 ≤ m) (hm2 : m ≤ 12) (hd : 1 ≤ d) (hd2 : d ≤ daysInMonth y m) :
    civilFromDays (daysFromCivil y m d) = (y, m, d) := by
  simp only [daysInMonth] at hd2
  have h31 : d ≤ 31 := by split_ifs at hd2 <;> omega
  have h30 : m = 4 ∨ m = 6 ∨ m = 9 ∨ m = 11 → d ≤ 30 := by
    intro h
    split_ifs at hd2 <;> omega
  have hfeb : m = 2 → d ≤ 28 ∨ (d = 29 ∧ y % 4 = 0 ∧ (y % 100 ≠ 0 ∨ y % 400 = 0)) := by
    intro h
    split_ifs at hd2 <;> omega
  obtain ⟨y', hy'⟩ : ∃ v, (if m ≤ 2 then y - 1 else y) = v := ⟨_, rfl⟩
  obtain ⟨era, hera⟩ : ∃ v, y' / 400 = v := ⟨_, rfl⟩
  obtain ⟨yoe, hyoe⟩ : ∃ v, y' - era * 400 = v := ⟨_, rfl⟩
  obtain ⟨mp, hmp⟩ : ∃ v, (if 2 < m then m - 3 else m + 9) = v := ⟨_, rfl⟩
  obtain ⟨doy, hdoy⟩ : ∃ v, (153 * mp + 2) / 5 + d - 1 = v := ⟨_, rfl⟩
  obtain ⟨doe, hdoe⟩ : ∃ v, yoe * 365 + yoe / 4 - yoe / 100 + doy = v := ⟨_, rfl⟩
  have hzv : daysFromCivil y m d = era * 146097 + doe - 719468 := by
    simp only [daysFromCivil]
    rw [hy', hera, hyoe, hmp, hdoy, hdoe]
  have hy'' : (m ≤ 2 ∧ y - 1 = y') ∨ (2 < m ∧ y = y') := by
    split_ifs at hy' with c
    · exact Or.inl ⟨c, hy'⟩
    · exact Or.inr ⟨by omega, hy'⟩
  have hmp' : (2 < m ∧ m - 3 = mp) ∨ (m ≤ 2 ∧ m + 9 = mp) := by
    split_ifs at hmp with c
    · exact Or.inl ⟨c, hmp⟩
    · exact Or.inr ⟨by omega, hmp⟩
  have hy'b : -1 ≤ y' ∧ y' ≤ 9999 := by rcases hy'' with ⟨c, e⟩ | ⟨c, e⟩ <;> omega
  have herab : -1 ≤ era ∧ era ≤ 24 := by omega
  have hyoeb : 0 ≤ yoe ∧ yoe ≤ 399 := by omega
  have hmpb : 0 ≤ mp ∧ mp ≤ 11 := by rcases hmp' with ⟨c, e⟩ | ⟨c, e⟩ <;> omega
  have h30mp : mp = 1 ∨ mp = 3 ∨ mp = 6 ∨ mp = 8 → d ≤ 30 := by
    rcases hmp' with ⟨c, e⟩ | ⟨c, e⟩ <;> intro h <;> [exact h30 (by omega); omega]
  have hfebmp : mp = 11 → d ≤ 29 := by
    intro h
    rcases hmp' with ⟨c, e⟩ | ⟨c, e⟩
    · omega
    · have := hfeb (by omega)
      omega
  have hdoyb : 0 ≤ doy ∧ doy ≤ 365 := by
    obtain ⟨hmp0, hmp1⟩ := hmpb
    interval_cases mp <;> omega
  have h5 : doy = 365 → ((yoe + 1) % 4 = 0 ∧ ((yoe + 1) % 100 ≠ 0 ∨ (yoe + 1) % 400 = 0)) := by
    intro h365
    obtain ⟨hmp0, hmp1⟩ := hmpb
    have hm2' : mp = 11 ∧ d = 29 := by interval_cases mp <;> omega
    have hmeq : m = 2 := by rcases hmp' with ⟨c, e⟩ | ⟨c, e⟩ <;> omega
    have hleap := hfeb hmeq
    rcases hy'' with ⟨c, e⟩ | ⟨c, e⟩ <;> omega
  have hdoeb : 0 ≤ doe ∧ doe ≤ 146096 := by omega
  have hyoeF : (doe - doe / 1460 + doe / 36524 - doe / 146096) / 365 = yoe :=
    yoe_recover yoe doy doe hyoeb.1 hyoeb.2 hdoyb.1 hdoyb.2 h5 (by omega)
  have hmpF : (5 * doy + 2) / 153 = mp := by
    obtain ⟨hmp0, hmp1⟩ := hmpb
    interval_cases mp <;> omega
  rw [hzv]
  refine civilFromDays_eq _ era doe yoe doy mp d m y (by omega) hdoeb.1 hdoeb.2 hyoeF
    (by omega) hmpF (by omega) ?_ ?_
  · rcases hmp' with ⟨c, e⟩ | ⟨c, e⟩ <;> split_ifs <;> omega
  · rcases hy'' with ⟨c, e⟩ | ⟨c, e⟩ <;> split_ifs <;> omega

set_option maxHeartbeats 1000000 in
theorem format_of_parse (s : String) (t : Int) (hp : parseRfc3339Z s = some t) :
    format_datetime t = s := by
  obtain ⟨l⟩ := s
  unfold parseRfc3339Z at hp
  split at hp
  case h_2 => exact absurd hp (by simp)
  rename_i y1 y2 y3 y4 m1 m2 d1 d2 h1 h2 n1 n2 s1 s2 heq
  split at hp
  case h_2 => exact absurd hp (by simp)
  rename_i a1 a2 a3 a4 b1 b2 e1 e2 f1 f2 g1 g2 k1 k2 hq1 hq2 hq3 hq4 hq5 hq6 hq7 hq8 hq9
    hq10 hq11 hq12 hq13 hq14
  simp only [] at hp
  split at hp
  case isFalse => exact absurd hp (by simp)
  rename_i hcond
  injection hp with ht
  subst ht
  have hl : l = [y1, y2, y3, y4, '-', m1, m2, '-', d1, d2, 'T', h1, h2, ':', n1, n2, ':', s1, s2, 'Z'] := heq
  subst hl
  obtain ⟨hL1, hU1, hc1⟩ := digit?_some hq1
  obtain ⟨hL2, hU2, hc2⟩ := digit?_some hq2
  obtain ⟨hL3, hU3, hc3⟩ := digit?_some hq3
  obtain ⟨hL4, hU4, hc4⟩ := digit?_some hq4
  obtain ⟨hL5, hU5, hc5⟩ := digit?_some hq5
  obtain ⟨hL6, hU6, hc6⟩ := digit?_some hq6
  obtain ⟨hL7, hU7, hc7⟩ := digit?_some hq7
  obtain ⟨hL8, hU8, hc8⟩ := digit?_some hq8
  obtain ⟨hL9, hU9, hc9⟩ := digit?_some hq9
  obtain ⟨hL10, hU10, hc10⟩ := digit?_some hq10
  obtain ⟨hL11, hU11, hc11⟩ := digit?_some hq11
  obtain ⟨hL12, hU12, hc12⟩ := digit?_some hq12
  obtain ⟨hL13, hU13, hc13⟩ := digit?_some hq13
  obtain ⟨hL14, hU14, hc14⟩ := digit?_some hq14
  obtain ⟨hmo1, hmo2, hda1, hda2, hhh, hmi, hss⟩ := hcond
  have hciv : civilFromDays
      (daysFromCivil (((a1 * 10 + a2) * 10 + a3) * 10 + a4) (b1 * 10 + b2) (e1 * 10 + e2)) =
      (((a1 * 10 + a2) * 10 + a3) * 10 + a4, b1 * 10 + b2, e1 * 10 + e2) :=
    civil_days_inverse _ _ _ (by omega) (by omega) hmo1 hmo2 hda1 hda2
  have hdays :
      (daysFromCivil (((a1 * 10 + a2) * 10 + a3) * 10 + a4) (b1 * 10 + b2) (e1 * 10 + e2) * 86400
        + (f1 * 10 + f2) * 3600 + (g1 * 10 + g2) * 60 + (k1 * 10 + k2)) / 86400 =
      daysFromCivil (((a1 * 10 + a2) * 10 + a3) * 10 + a4) (b1 * 10 + b2) (e1 * 10 + e2) := by
    omega
  have hsod :
      (daysFromCivil (((a1 * 10 + a2) * 10 + a3) * 10 + a4) (b1 * 10 + b2) (e1 * 10 + e2) * 86400
        + (f1 * 10 + f2) * 3600 + (g1 * 10 + g2) * 60 + (k1 * 10 + k2)) % 86400 =
      (f1 * 10 + f2) * 3600 + (g1 * 10 + g2) * 60 + (k1 * 10 + k2) := by
    omega
  simp only [format_datetime]
  rw [hdays, hsod, hciv]
  dsimp only
  have p1 : digitOf ((((a1 * 10 + a2) * 10 + a3) * 10 + a4).toNat / 1000 % 10) = y1 := by
    rw [show (((a1 * 10 + a2) * 10 + a3) * 10 + a4).toNat / 1000 % 10 = a1.toNat by omega]
    exact hc1
  have p2 : digitOf ((((a1 * 10 + a2) * 10 + a3) * 10 + a4).toNat / 100 % 10) = y2 := by
    rw [show (((a1 * 10 + a2) * 10 + a3) * 10 + a4).toNat / 100 % 10 = a2.toNat by omega]
    exact hc2
  have p3 : digitOf ((((a1 * 10 + a2) * 10 + a3) * 10 + a4).toNat / 10 % 10) = y3 := by
    rw [show (((a1 * 10 + a2) * 10 + a3) * 10 + a4).toNat / 10 % 10 = a3.toNat by omega]
    exact hc3
  have p4 : digitOf ((((a1 * 10 + a2) * 10 + a3) * 10 + a4).toNat % 10) = y4 := by
    rw [show (((a1 * 10 + a2) * 10 + a3) * 10 + a4).toNat % 10 = a4.toNat by omega]
    exact hc4
  have p5 : digitOf ((b1 * 10 + b2).toNat / 10 % 10) = m1 := by
    rw [show (b1 * 10 + b2).toNat / 10 % 10 = b1.toNat by omega]
    exact hc5
  have p6 : digitOf ((b1 * 10 + b2).toNat % 10) = m2 := by
    rw [show (b1 * 10 + b2).toNat % 10 = b2.toNat by omega]
    exact hc6
  have p7 : digitOf ((e1 * 10 + e2).toNat / 10 % 10) = d1 := by
    rw [show (e1 * 10 + e2).toNat / 10 % 10 = e1.toNat by omega]
    exact hc7
  have p8 : digitOf ((e1 * 10 + e2).toNat % 10) = d2 := by
    rw [show (e1 * 10 + e2).toNat % 10 = e2.toNat by omega]
    exact hc8
  have p9 : digitOf
      (((f1 * 10 + f2) * 3600 + (g1 * 10 + g2) * 60 + (k1 * 10 + k2)).toNat / 3600 / 10 % 10) =
      h1 := by
    rw [show ((f1 * 10 + f2) * 3600 + (g1 * 10 + g2) * 60 + (k1 * 10 + k2)).toNat / 3600 / 10 % 10
      = f1.toNat by omega]
    exact hc9
  have p10 : digitOf
      (((f1 * 10 + f2) * 3600 + (g1 * 10 + g2) * 60 + (k1 * 10 + k2)).toNat / 3600 % 10) =
      h2 := by
    rw [show ((f1 * 10 + f2) * 3600 + (g1 * 10 + g2) * 60 + (k1 * 10 + k2)).toNat / 3600 % 10
      = f2.toNat by omega]
    exact hc10
  have p11 : digitOf
      (((f1 * 10 + f2) * 3600 + (g1 * 10 + g2) * 60 + (k1 * 10 + k2)).toNat % 3600 / 60 / 10 % 10) =
      n1 := by
    rw [show ((f1 * 10 + f2) * 3600 + (g1 * 10 + g2) * 60 + (k1 * 10 + k2)).toNat % 3600 / 60 / 10
      % 10 = g1.toNat by omega]
    exact hc11
  have p12 : digitOf
      (((f1 * 10 + f2) * 3600 + (g1 * 10 + g2) * 60 + (k1 * 10 + k2)).toNat % 3600 / 60 % 10) =
      n2 := by
    rw [show ((f1 * 10 + f2) * 3600 + (g1 * 10 + g2) * 60 + (k1 * 10 + k2)).toNat % 3600 / 60 % 10
      = g2.toNat by omega]
    exact hc12
  have p13 : digitOf
      (((f1 * 10 + f2) * 3600 + (g1 * 10 + g2) * 60 + (k1 * 10 + k2)).toNat % 60 / 10 % 10) =
      s1 := by
    rw [show ((f1 * 10 + f2) * 3600 + (g1 * 10 + g2) * 60 + (k1 * 10 + k2)).toNat % 60 / 10 % 10
      = k1.toNat by omega]
    exact hc13
  have p14 : digitOf
      (((f1 * 10 + f2) * 3600 + (g1 * 10 + g2) * 60 + (k1 * 10 + k2)).toNat % 60 % 10) =
      s2 := by
    rw [show ((f1 * 10 + f2) * 3600 + (g1 * 10 + g2) * 60 + (k1 * 10 + k2)).toNat % 60 % 10
      = k2.toNat by omega]
    exact hc14
  simp only [pad4, pad2, p1, p2, p3, p4, p5, p6, p7, p8, p9, p10, p11, p12, p13, p14,
    List.cons_append, List.nil_append]


/-- Characterization of the credential loader: it succeeds exactly when no
variable is missing, the success value carries each looked-up value (with
the empty-string placeholder for the impossible missing case), and the
failure value is the newline-joined list of one message per missing
variable, in attempt order. -/
theorem Env.new_spec (env : EnvMap) :
    Env.new env =
      if envMissing env = [] then
        Except.ok
          ⟨(env CF_API_KEY).getD emptyText, (env R2_ACCESS_KEY_ID).getD emptyText,
            (env R2_SECRET_ACCESS_KEY).getD emptyText, (env CF_ACCOUNT_ID).getD emptyText,
            (env BUCKET_NAME).getD emptyText⟩
      else
        Except.error (missingMessage env) := by
  rcases h1 : env CF_API_KEY with _ | v1 <;>
    rcases h2 : env R2_ACCESS_KEY_ID with _ | v2 <;>
      rcases h3 : env R2_SECRET_ACCESS_KEY with _ | v3 <;>
        rcases h4 : env CF_ACCOUNT_ID with _ | v4 <;>
          rcases h5 : env BUCKET_NAME with _ | v5 <;>
            simp [Env.new, get_env_var, envMissing, envVarNames, missingMessage,
              h1, h2, h3, h4, h5]

/-- The retrieve endpoint, written as the specification writes it. -/
theorem build_endpoint_retrieve_eq (args : ParsedArgs) (env : UrlEnv) :
    Commands.build_endpoint Commands.Retrieve args env =
      urlBase ++ env.cf_account_id ++ "/logs/retrieve?start=" ++ args.start_time ++ "&end="
        ++ args.end_time ++ "&bucket=" ++ env.bucket_name ++ "&prefix=\x7bDATE\x7d" := by
  simp only [Commands.build_endpoint, String.append_assoc]
  congr 1

/-- The list endpoint, written as the specification writes it. -/
theorem build_endpoint_list_eq (args : ParsedArgs) (env : UrlEnv) :
    Commands.build_endpoint Commands.List args env =
      urlBase ++ env.cf_account_id ++ "/logs/list?start=" ++ args.start_time ++ "&end="
        ++ args.end_time ++ "&bucket=" ++ env.bucket_name ++ "&prefix=\x7bDATE\x7d" := by
  simp only [Commands.build_endpoint, String.append_assoc]
  congr 1

/-! ### Claim theorems -/

/-- C1: for every account id A, bucket name B and resolved range S, E, the
Retrieve endpoint equals exactly the account-scoped URL with the
`/logs/retrieve` path and the query `start=S&end=E&bucket=B&prefix=` plus
the literal DATE template token, and the List endpoint is the same string
with `/list` in place of `/retrieve`; the query-parameter order is
identical for both variants, and the inline endpoint construction in main
produces the same strings. -/
theorem endpoint_exact_form (A B S E K I SEC : String) (v : Bool) (c : Option Commands) :
    Commands.build_endpoint Commands.Retrieve ⟨S, E, v, c⟩ ⟨A, B⟩ =
      urlBase ++ A ++ "/logs/retrieve?start=" ++ S ++ "&end=" ++ E ++ "&bucket=" ++ B
        ++ "&prefix=\x7bDATE\x7d" ∧
    Commands.build_endpoint Commands.List ⟨S, E, v, c⟩ ⟨A, B⟩ =
      urlBase ++ A ++ "/logs/list?start=" ++ S ++ "&end=" ++ E ++ "&bucket=" ++ B
        ++ "&prefix=\x7bDATE\x7d" ∧
    mainEndpoint ⟨S, E, v, some Commands.Retrieve⟩ ⟨K, I, SEC, A, B⟩ =
      urlBase ++ A ++ "/logs/retrieve?start=" ++ S ++ "&end=" ++ E ++ "&bucket=" ++ B
        ++ "&prefix=\x7bDATE\x7d" ∧
    mainEndpoint ⟨S, E, v, some Commands.List⟩ ⟨K, I, SEC, A, B⟩ =
      urlBase ++ A ++ "/logs/list?start=" ++ S ++ "&end=" ++ E ++ "&bucket=" ++ B
        ++ "&prefix=\x7bDATE\x7d" := by
  refine ⟨build_endpoint_retrieve_eq _ _, build_endpoint_list_eq _ _, ?_, ?_⟩ <;>
    (simp only [mainEndpoint, String.append_assoc]; congr 1)

/-- C2: the credential loader attempts all five variables in one pass; it
fails exactly when at least one is absent, and then its error value is the
newline-joined concatenation of one message NAME followed by the
is-not-set suffix per missing variable (so with zero variables set every
name is enumerated); with all variables set it returns the fully populated
structure whose fields are the looked-up values. -/
theorem env_loader_all_or_error (env : EnvMap) :
    Env.new env =
      if envMissing env = [] then
        Except.ok
          ⟨(env CF_API_KEY).getD emptyText, (env R2_ACCESS_KEY_ID).getD emptyText,
            (env R2_SECRET_ACCESS_KEY).getD emptyText, (env CF_ACCOUNT_ID).getD emptyText,
            (env BUCKET_NAME).getD emptyText⟩
      else
        Except.error (missingMessage env) :=
  Env.new_spec env

/-- C3: for every response with a non-success status, whatever the body
(including a failed body read), the fetcher returns the empty-string
success value, raising no error, and that value is identical to the value
returned for a successful response with an empty body (no logs found). -/
theorem fetch_nonsuccess_returns_empty (status : Nat) (body : BodyRead)
    (h : statusIsSuccess status = false) :
    fetch_logs (HttpExchange.response status body) = Except.ok emptyText ∧
    fetch_logs (HttpExchange.response status body) =
      fetch_logs (HttpExchange.response 200 (BodyRead.ok emptyText)) := by
  refine ⟨?_, ?_⟩ <;> simp [fetch_logs, h]

/-- C3 witness: a 404 with a non-empty error body yields the empty result,
equal to the no-logs-found result. -/
theorem fetch_nonsuccess_returns_empty_witness :
    statusIsSuccess 404 = false ∧
    (fetch_logs (HttpExchange.response 404 (BodyRead.ok sampleErrorBody)) =
        Except.ok emptyText ∧
      fetch_logs (HttpExchange.response 404 (BodyRead.ok sampleErrorBody)) =
        fetch_logs (HttpExchange.response 200 (BodyRead.ok emptyText))) :=
  ⟨by decide, fetch_nonsuccess_returns_empty 404 (BodyRead.ok sampleErrorBody) (by decide)⟩

/-- C4: for every response with a success status whose body reads as text
X, the fetcher returns exactly X (byte for byte); when X is empty this is
the empty-string result, and when X is non-empty it is the raw body,
unparsed and unmodified. -/
theorem fetch_success_returns_raw_body (status : Nat) (text : String)
    (h : statusIsSuccess status = true) :
    fetch_logs (HttpExchange.response status (BodyRead.ok text)) = Except.ok text := by
  have hstep : fetch_logs (HttpExchange.response status (BodyRead.ok text)) =
      if text.isEmpty then Except.ok emptyText else Except.ok text := by
    simp [fetch_logs, h]
  rw [hstep]
  split_ifs with he
  · rw [show text = emptyText from by simpa [String.isEmpty_iff, emptyText] using he]
  · rfl

/-- C4 witness: a 200 response with a concrete non-empty body yields
exactly that body. -/
theorem fetch_success_returns_raw_body_witness :
    statusIsSuccess 200 = true ∧ sampleBody.isEmpty = false ∧
    fetch_logs (HttpExchange.response 200 (BodyRead.ok sampleBody)) = Except.ok sampleBody :=
  ⟨by decide, by decide, fetch_success_returns_raw_body 200 sampleBody (by decide)⟩

/-- C5 counterexample: with every variable missing, the main binary prints
the collected messages and the hint and returns Ok so the process exits
with code 0, not a non-zero code as the claim states (and no request is
attempted). -/
theorem missing_env_exits_zero :
    mainRun envNone ⟨none, none, false, none⟩ 0
        (HttpExchange.response 200 (BodyRead.ok sampleBody)) =
      some ⟨[missingMessage envNone, pleaseSetMsg], [blankLine], 0, false⟩ := by
  decide

/-- C5 (amended): whenever at least one required variable is missing, main
prints the collected error messages plus the hint and terminates without
attempting any HTTP request, but with exit code 0 (its early return of Ok),
while the library loader get_env performs the same prints and exits with
code 1. -/
theorem missing_env_behavior (env : EnvMap) (a : Args) (now : Int) (http : HttpExchange)
    (h : ¬ envMissing env = []) :
    mainRun env a now http =
      some ⟨[missingMessage env, pleaseSetMsg], [blankLine], 0, false⟩ ∧
    Env.get_env env =
      Except.error ⟨[missingMessage env, pleaseSetMsg], [blankLine], 1⟩ := by
  have hn := Env.new_spec env
  rw [if_neg h] at hn
  exact ⟨by simp [mainRun, hn], by simp [Env.get_env, hn]⟩

/-- C5 witness: the empty environment is missing variables, and both
failure paths behave as stated. -/
theorem missing_env_behavior_witness :
    ¬ envMissing envNone = [] ∧
    (mainRun envNone ⟨none, none, false, none⟩ 0
          (HttpExchange.response 200 (BodyRead.ok sampleBody)) =
        some ⟨[missingMessage envNone, pleaseSetMsg], [blankLine], 0, false⟩ ∧
      Env.get_env envNone =
        Except.error ⟨[missingMessage envNone, pleaseSetMsg], [blankLine], 1⟩) :=
  ⟨by decide,
    missing_env_behavior envNone ⟨none, none, false, none⟩ 0
      (HttpExchange.response 200 (BodyRead.ok sampleBody)) (by decide)⟩

/-- C6: with both timestamps absent, the resolved start time is the
current time minus five minutes and the resolved end time is the current
time, both rendered by the RFC3339 UTC seconds-precision renderer; this
holds in both resolver variants. -/
theorem default_time_range (now : Int) (v : Bool) (c : Option Commands) :
    Args.parse_and_check ⟨none, none, v, c⟩ now =
      some ⟨format_datetime (now - 5 * 60), format_datetime now, v, c⟩ ∧
    TypedArgs.parsed ⟨none, none, v, c⟩ now =
      ⟨format_datetime (now - 5 * 60), format_datetime now, v, c⟩ :=
  ⟨rfl, rfl⟩

/-- C7: every valid explicit RFC3339 input round-trips: if the parser
yields the instant t for the input s, then re-rendering t yields exactly
s, and the resolver maps the supplied strings to themselves (no timezone
shift, seconds precision preserved). -/
theorem explicit_input_roundtrip (s : String) (t : Int) (v : Bool) (c : Option Commands)
    (now : Int) (hp : parseRfc3339Z s = some t) :
    format_datetime t = s ∧
    Args.parse_and_check ⟨some s, some s, v, c⟩ now = some ⟨s, s, v, c⟩ := by
  have hf := format_of_parse s t hp
  refine ⟨hf, ?_⟩
  simp [Args.parse_and_check, hp, hf]

/-- C7 witness: the documented example input parses to a concrete instant
and round-trips to itself. -/
theorem explicit_input_roundtrip_witness :
    parseRfc3339Z exampleInput = some 1704985200 ∧
    (format_datetime 1704985200 = exampleInput ∧
      Args.parse_and_check ⟨some exampleInput, some exampleInput, false, none⟩ 0 =
        some ⟨exampleInput, exampleInput, false, none⟩) :=
  ⟨by decide, explicit_input_roundtrip exampleInput 1704985200 false none 0 (by decide)⟩

/-- C8: for every pair of valid timestamps, with no ordering hypothesis
whatsoever (so also when start is later than end), the resolver succeeds
and passes both strings through unchanged, and the endpoint builder embeds
them in the query string in that same order; no start-before-end check
exists anywhere on the path. -/
theorem out_of_order_range_passthrough (s e : String) (ts te : Int) (v : Bool)
    (c : Option Commands) (now : Int) (A B : String)
    (hs : parseRfc3339Z s = some ts) (he : parseRfc3339Z e = some te) :
    Args.parse_and_check ⟨some s, some e, v, c⟩ now = some ⟨s, e, v, c⟩ ∧
    Commands.build_endpoint Commands.Retrieve ⟨s, e, v, c⟩ ⟨A, B⟩ =
      urlBase ++ A ++ "/logs/retrieve?start=" ++ s ++ "&end=" ++ e ++ "&bucket=" ++ B
        ++ "&prefix=\x7bDATE\x7d" := by
  have hfs := format_of_parse s ts hs
  have hfe := format_of_parse e te he
  refine ⟨?_, build_endpoint_retrieve_eq _ _⟩
  simp [Args.parse_and_check, hs, he, hfs, hfe]

/-- C8 witness: a concrete range whose start is five minutes after its end
is resolved and embedded unchanged. -/
theorem out_of_order_range_passthrough_witness :
    parseRfc3339Z lateInput = some 1704985500 ∧
    parseRfc3339Z exampleInput = some 1704985200 ∧
    (1704985200 : Int) < 1704985500 ∧
    (Args.parse_and_check ⟨some lateInput, some exampleInput, false, none⟩ 0 =
        some ⟨lateInput, exampleInput, false, none⟩ ∧
      Commands.build_endpoint Commands.Retrieve ⟨lateInput, exampleInput, false, none⟩
          ⟨accA, bucketB⟩ =
        urlBase ++ accA ++ "/logs/retrieve?start=" ++ lateInput ++ "&end=" ++ exampleInput
          ++ "&bucket=" ++ bucketB ++ "&prefix=\x7bDATE\x7d") :=
  ⟨by decide, by decide, by decide,
    out_of_order_range_passthrough lateInput exampleInput 1704985500 1704985200 false none 0
      accA bucketB (by decide) (by decide)⟩

/-- C9 counterexample: the CLI layer of the main binary delivers arbitrary
strings, and on a malformed datetime the panicking unwrap branch inside
the resolver IS reached (modelled as none), contradicting the claim that
it is unreachable for all inputs the resolver receives. -/
theorem resolver_panics_on_malformed :
    Args.parse_and_check ⟨some badInput, none, false, none⟩ 0 = none := by
  rfl

/-- C9 (amended): in the main binary the resolver panics exactly when a
supplied start or end string fails to parse, and never on absent inputs;
in the typed variant (src/commands.rs) the resolver is total because the
CLI layer already parsed the datetimes. -/
theorem resolver_panic_characterization (a : Args) (now : Int) :
    Args.parse_and_check a now = none ↔
      (∃ s, a.start_time = some s ∧ parseRfc3339Z s = none) ∨
      (∃ e, a.end_time = some e ∧ parseRfc3339Z e = none) := by
  rcases a with ⟨st, et, v, c⟩
  cases st with
  | none =>
    cases et with
    | none => simp [Args.parse_and_check]
    | some e =>
      cases hpe : parseRfc3339Z e <;> simp [Args.parse_and_check, hpe]
  | some s =>
    cases et with
    | none =>
      cases hps : parseRfc3339Z s <;> simp [Args.parse_and_check, hps]
    | some e =>
      cases hps : parseRfc3339Z s <;> cases hpe : parseRfc3339Z e <;>
        simp [Args.parse_and_check, hps, hpe]

/-- C10: a variable that is present but set to the empty string is treated
as set: the per-variable lookup records no error and returns the empty
string as the value, and with every variable empty-but-present the loader
succeeds with a structure carrying empty strings; absence, not emptiness,
is the sole failure condition. -/
theorem empty_value_counts_as_set (env : EnvMap) (name : String) (errs : List String)
    (h1 : env CF_API_KEY = some emptyText) (h2 : env R2_ACCESS_KEY_ID = some emptyText)
    (h3 : env R2_SECRET_ACCESS_KEY = some emptyText) (h4 : env CF_ACCOUNT_ID = some emptyText)
    (h5 : env BUCKET_NAME = some emptyText) (hn : env name = some emptyText) :
    Env.new env = Except.ok ⟨emptyText, emptyText, emptyText, emptyText, emptyText⟩ ∧
    get_env_var env name errs = (emptyText, errs) := by
  constructor
  · simp [Env.new, get_env_var, h1, h2, h3, h4, h5]
  · simp [get_env_var, hn]

/-- C10 witness: the all-empty environment loads successfully and the
lookup of an empty-but-present variable records no error. -/
theorem empty_value_counts_as_set_witness :
    envAllEmpty CF_API_KEY = some emptyText ∧
    (Env.new envAllEmpty =
        Except.ok ⟨emptyText, emptyText, emptyText, emptyText, emptyText⟩ ∧
      get_env_var envAllEmpty CF_API_KEY [] = (emptyText, [])) :=
  ⟨rfl, empty_value_counts_as_set envAllEmpty CF_API_KEY [] rfl rfl rfl rfl rfl rfl⟩

end R2Logs
